import Mathlib

/-!
# Verification of the `calculator2025.py` expression evaluator

Shallow embedding of `safe_eval` from `src/Calc/calculator2025.py` and of the
pieces of the host runtime its behaviour depends on:

* the glyph normalization performed at the top of `safe_eval`
  (`expr.replace("×","*").replace("÷","/").replace("^","**").replace("√","sqrt")`);
* the expression parser (`ast.parse(expr, mode='eval')`): CPython's expression
  grammar restricted to the calculator's character set — numbers, identifiers,
  `+ - * / // % **`, unary `+ - ~`, parentheses, and call trailers (a call
  trailer may follow *any* primary, so `2(3+4)` parses as a call whose callee
  is the literal `2`, exactly as in CPython);
* the capability registry `SAFE_MATH`, built by reflection over the public
  names of CPython's `math` module (CPython 3.11 name set) and then updated
  with explicit entries for `pi, e, sqrt, ln, log, pow, abs, factorial`;
* the recursive AST walker `_eval`, including its error discipline
  (`EvalError(...)` with fixed message strings, modelled as the constructors
  of `EvalErr`) and the exceptions that escape it untyped (`ZeroDivisionError`
  from `%` and `**`, `TypeError` from operators applied to function objects).

Idealizations (stated once, used throughout): CPython floats are modelled as
exact real numbers and complexes as exact elements of `ℂ`; there is no
rounding, overflow to infinity, or signed zero.  The non-finite float
constants `math.inf` / `math.nan` are modelled by the dedicated `Value.special`
constructor with IEEE-style propagation rules.  The handful of `math`-module
callables whose results fall outside this value domain (tuple-returning
`frexp`/`modf`, the bit-representation functions `nextafter`/`ulp`) are
modelled as failing when applied; no theorem below exercises them.
-/

namespace Calc2025

/-! ## Lexer

CPython tokenization of the calculator's character set.  `safe_eval` feeds the
normalized string to `ast.parse`; we model the token stream it produces.
Number literals are unsigned (a leading `-` is a unary operator in the
grammar); `5.`, `.5` and `2.5` are all float literals.
-/

inductive Tok where
  | int (n : ℕ)
  /-- A float literal with decimal digits `m` and `k` digits after the point:
  its value is `m / 10^k` (decimal literals are modelled exactly). -/
  | float (m k : ℕ)
  | ident (s : String)
  | lparen
  | rparen
  | comma
  | plus
  | minus
  | star
  | starstar
  | slash
  | slashslash
  | percent
  | tilde

def digVal (c : Char) : ℕ := c.toNat - '0'.toNat

def takeDigits : List Char → List Char × List Char
  | [] => ([], [])
  | c :: cs =>
    if c.isDigit then
      let (ds, r) := takeDigits cs
      (c :: ds, r)
    else ([], c :: cs)

def isIdentChar (c : Char) : Bool := c.isAlpha || c.isDigit || c = '_'

def takeIdent : List Char → List Char × List Char
  | [] => ([], [])
  | c :: cs =>
    if isIdentChar c then
      let (ds, r) := takeIdent cs
      (c :: ds, r)
    else ([], c :: cs)

def natOfDigits (ds : List Char) : ℕ := ds.foldl (fun a c => 10 * a + digVal c) 0

/-- Lex one numeric literal (integer, or float with a `.`). -/
def lexNum (cs : List Char) : Option (Tok × List Char) :=
  let (ip, r1) := takeDigits cs
  match r1 with
  | '.' :: r2 =>
    let (fp, r3) := takeDigits r2
    if ip.isEmpty && fp.isEmpty then none
    else some (.float (natOfDigits (ip ++ fp)) fp.length, r3)
  | _ => if ip.isEmpty then none else some (.int (natOfDigits ip), r1)

/-- Fuel-indexed lexer; `lexChars` runs it with enough fuel. -/
def lexF : ℕ → List Char → Option (List Tok)
  | 0, _ => none
  | _ + 1, [] => some []
  | f + 1, c :: cs =>
    if c = ' ' then lexF f cs
    else if c.isDigit || c = '.' then
      match lexNum (c :: cs) with
      | some (t, r) => (lexF f r).map (t :: ·)
      | none => none
    else if c.isAlpha || c = '_' then
      let (id, r) := takeIdent (c :: cs)
      (lexF f r).map (Tok.ident ⟨id⟩ :: ·)
    else
      match c, cs with
      | '*', '*' :: r => (lexF f r).map (Tok.starstar :: ·)
      | '*', r => (lexF f r).map (Tok.star :: ·)
      | '/', '/' :: r => (lexF f r).map (Tok.slashslash :: ·)
      | '/', r => (lexF f r).map (Tok.slash :: ·)
      | '+', r => (lexF f r).map (Tok.plus :: ·)
      | '-', r => (lexF f r).map (Tok.minus :: ·)
      | '%', r => (lexF f r).map (Tok.percent :: ·)
      | '~', r => (lexF f r).map (Tok.tilde :: ·)
      | '(', r => (lexF f r).map (Tok.lparen :: ·)
      | ')', r => (lexF f r).map (Tok.rparen :: ·)
      | ',', r => (lexF f r).map (Tok.comma :: ·)
      | _, _ => none

def lexChars (cs : List Char) : Option (List Tok) := lexF (cs.length + 1) cs

/-! ## Abstract syntax

The `ast` node shapes `safe_eval._eval` dispatches on: `Constant`, `Name`,
`UnaryOp` (`USub`, `UAdd`, and `Invert`, which the walker rejects), `BinOp`
(including `FloorDiv`, which the walker rejects), and `Call`.  A call's callee
is an arbitrary expression, as in CPython (`node.func` need not be a `Name`).
-/

inductive UnK where
  | neg
  | pos
  | invert

inductive BinK where
  | add
  | sub
  | mul
  | div
  | mod
  | pow
  | floordiv

/-- Numeric literals as produced by the lexer (always non-negative; a leading
sign is a unary operator).  `floatL m k` denotes `m / 10^k`. -/
inductive Lit where
  | intL (n : ℕ)
  | floatL (m k : ℕ)

inductive Expr where
  | lit (v : Lit)
  | name (id : String)
  | unaryOp (op : UnK) (e : Expr)
  | binOp (op : BinK) (l r : Expr)
  | call (fn : Expr) (args : List Expr)

/-! ## Parser

CPython's expression grammar (`ast.parse(_, mode='eval')`) restricted to the
tokens above, lowest to highest precedence:

* `expr := term (("+"|"-") term)*`
* `term := unary (("*"|"/"|"//"|"%") unary)*`
* `unary := ("-"|"+"|"~") unary | power`
* `power := primary ("**" unary)?`  — the right operand of `**` is parsed at
  unary level, so `**` is right-associative and binds tighter than a unary
  sign on its left (`-2**2 = -(2**2)`) but admits a sign on its right.
* `primary := atom ("(" args ")")*`  — a call trailer may follow any primary.
* `atom := NUMBER | IDENT | "(" expr ")"`

The grammar's mutually recursive productions are written as one fuel-indexed
function over a mode type (one mode per production, the loop modes carrying
their accumulator), so that the definition stays structurally recursive on
the fuel; `parseTokens` supplies ample fuel.
-/

/-- One mode per grammar production: `expr`/`term` parse a full production,
`exprL`/`termL` are their left-associative operator loops with the parsed
left operand, `unary`/`power`/`primary` as in the grammar (the `atom`
production is inlined into `primary`), `trailers e` consumes call trailers
after the primary `e`, and `args callee acc` parses one more call argument. -/
inductive PM where
  | expr (toks : List Tok)
  | exprL (e : Expr) (toks : List Tok)
  | term (toks : List Tok)
  | termL (e : Expr) (toks : List Tok)
  | unary (toks : List Tok)
  | power (toks : List Tok)
  | primary (toks : List Tok)
  | trailers (e : Expr) (toks : List Tok)
  | args (callee : Expr) (acc : List Expr) (toks : List Tok)

def parseF : ℕ → PM → Option (Expr × List Tok)
  | 0, _ => none
  | f + 1, .expr toks => do
    let (e, r) ← parseF f (.term toks)
    parseF f (.exprL e r)
  | f + 1, .exprL e (.plus :: r) => do
    let (e2, r2) ← parseF f (.term r)
    parseF f (.exprL (.binOp .add e e2) r2)
  | f + 1, .exprL e (.minus :: r) => do
    let (e2, r2) ← parseF f (.term r)
    parseF f (.exprL (.binOp .sub e e2) r2)
  | _ + 1, .exprL e r => some (e, r)
  | f + 1, .term toks => do
    let (e, r) ← parseF f (.unary toks)
    parseF f (.termL e r)
  | f + 1, .termL e (.star :: r) => do
    let (e2, r2) ← parseF f (.unary r)
    parseF f (.termL (.binOp .mul e e2) r2)
  | f + 1, .termL e (.slash :: r) => do
    let (e2, r2) ← parseF f (.unary r)
    parseF f (.termL (.binOp .div e e2) r2)
  | f + 1, .termL e (.slashslash :: r) => do
    let (e2, r2) ← parseF f (.unary r)
    parseF f (.termL (.binOp .floordiv e e2) r2)
  | f + 1, .termL e (.percent :: r) => do
    let (e2, r2) ← parseF f (.unary r)
    parseF f (.termL (.binOp .mod e e2) r2)
  | _ + 1, .termL e r => some (e, r)
  | f + 1, .unary (.minus :: r) =>
    (parseF f (.unary r)).map (fun (e, r2) => (.unaryOp .neg e, r2))
  | f + 1, .unary (.plus :: r) =>
    (parseF f (.unary r)).map (fun (e, r2) => (.unaryOp .pos e, r2))
  | f + 1, .unary (.tilde :: r) =>
    (parseF f (.unary r)).map (fun (e, r2) => (.unaryOp .invert e, r2))
  | f + 1, .unary toks => parseF f (.power toks)
  | f + 1, .power toks => do
    let (b, r) ← parseF f (.primary toks)
    match r with
    | .starstar :: r2 => do
      let (e, r3) ← parseF f (.unary r2)
      some (.binOp .pow b e, r3)
    | _ => some (b, r)
  | f + 1, .primary (.int n :: r) => parseF f (.trailers (.lit (.intL n)) r)
  | f + 1, .primary (.float m k :: r) => parseF f (.trailers (.lit (.floatL m k)) r)
  | f + 1, .primary (.ident s :: r) => parseF f (.trailers (.name s) r)
  | f + 1, .primary (.lparen :: r) => do
    let (e, r2) ← parseF f (.expr r)
    match r2 with
    | .rparen :: r3 => parseF f (.trailers e r3)
    | _ => none
  | _ + 1, .primary _ => none
  | f + 1, .trailers e (.lparen :: .rparen :: r2) => parseF f (.trailers (.call e []) r2)
  | f + 1, .trailers e (.lparen :: r) => parseF f (.args e [] r)
  | _ + 1, .trailers e r => some (e, r)
  | f + 1, .args callee acc toks => do
    let (e, r) ← parseF f (.expr toks)
    match r with
    | .comma :: .rparen :: r2 => parseF f (.trailers (.call callee (acc ++ [e])) r2)
    | .comma :: r2 => parseF f (.args callee (acc ++ [e]) r2)
    | .rparen :: r2 => parseF f (.trailers (.call callee (acc ++ [e])) r2)
    | _ => none

/-- Parse a complete token stream; trailing tokens are a syntax error, as in
`ast.parse` (mode `eval` requires the whole input to be one expression). -/
def parseTokens (toks : List Tok) : Option Expr :=
  match parseF (10 * toks.length + 10) (.expr toks) with
  | some (e, []) => some e
  | _ => none


def parseStr (s : String) : Option Expr := (lexChars s.data).bind parseTokens

/-! ## Runtime values

A `safe_eval` computation manipulates CPython objects: `int`s, `bool`s
(a subclass of `int`), `float`s (exact reals here, with `inf`/`-inf`/`nan`
split into the `special` constructor), `complex` numbers, and — because a bare
`Name` is answered with the raw registry entry — the registry's function
objects themselves.
-/

/-- Non-finite float "values" (`math.inf`, `math.nan` and negated forms). -/
inductive FS where
  | pinf
  | ninf
  | nan

/-- The function objects stored in `SAFE_MATH`: the callables of CPython 3.11's
`math` module, plus the builtins `pow` and `abs` added by the `update`, with
`logNat` standing for `math.log` (bound to the key `"ln"`) and `log10` for
`math.log10` (bound both to `"log10"` and, by the `update`, to `"log"`). -/
inductive MathFn where
  | acos | acosh | asin | asinh | atan | atan2 | atanh | cbrt | ceil | comb
  | copysign | cos | cosh | degrees | dist | erf | erfc | exp | exp2 | expm1
  | fabs | factorial | floor | fmod | frexp | fsum | gamma | gcd | hypot
  | isclose | isfinite | isinf | isnan | isqrt | lcm | ldexp | lgamma
  | logNat | log10 | log1p | log2 | modf | nextafter | perm | powB | prod
  | radians | remainder | sin | sinh | sqrt | tan | tanh | trunc | ulp | absB

inductive Value where
  | int (n : ℤ)
  | bool (b : Bool)
  | float (x : ℝ)
  | complex (z : ℂ)
  | special (s : FS)
  | fn (f : MathFn)

/-- The error kinds `safe_eval` signals via `raise EvalError("...")`; each
constructor corresponds to one of the message strings in the source. -/
inductive EvalErr where
  /-- Message `"Syntax error"` (any `ast.parse` failure). -/
  | syntaxError
  /-- Message `"Invalid constant"` (a non-`int`/`float` constant; not producible from
  the calculator token set, kept for the taxonomy). -/
  | invalidConstant
  /-- Message `"Division by zero"`. -/
  | divisionByZero
  /-- Message `"Unsupported binary op"` (e.g. `//`). -/
  | unsupportedBinOp
  /-- Message `"Unsupported unary op"` (e.g. `~`). -/
  | unsupportedUnaryOp
  /-- Message `"Invalid function"` (a call whose callee is not a bare name). -/
  | invalidFunction
  /-- Message "Function ... not allowed" carrying the function name. -/
  | functionNotAllowed (fname : String)
  /-- Message `"Function error"` (any exception raised while applying a registry
  entry: wrong arity, bad argument type, domain error, ...). -/
  | functionError
  /-- Message `"Name not allowed"`. -/
  | nameNotAllowed
  /-- Message `"Unsupported expression"` (node kinds the walker does not handle). -/
  | unsupportedExpression
  /-- Message `"Complex result not supported"` (final `isinstance(result, complex)`
  check). -/
  | complexResult

/-- What escapes a `safe_eval` call: either a typed `EvalError`, or one of the
raw CPython exceptions the walker does not catch (`ZeroDivisionError` from
`%`/`**`, `TypeError` from operators applied to function objects). -/
inductive PyExc where
  | evalError (e : EvalErr)
  | zeroDivisionError
  | typeError

namespace Value

/-- CPython `bool` is an `int` subclass; arithmetic promotes it. -/
def promote : Value → Value
  | .bool b => .int (if b then 1 else 0)
  | v => v

end Value

/-- A float with IEEE non-finite values, for operations that mix finite
(idealized-real) floats with `math.inf`/`math.nan`. -/
inductive RF where
  | fin (x : ℝ)
  | pinf
  | ninf
  | nan

def toRF : Value → Option RF
  | .int n => some (.fin n)
  | .bool b => some (.fin (if b then 1 else 0))
  | .float x => some (.fin x)
  | .special .pinf => some .pinf
  | .special .ninf => some .ninf
  | .special .nan => some .nan
  | _ => none

def toC : Value → Option ℂ
  | .int n => some n
  | .bool b => some (if b then 1 else 0)
  | .float x => some x
  | .complex z => some z
  | _ => none

def rfToValue : RF → Value
  | .fin x => .float x
  | .pinf => .special .pinf
  | .ninf => .special .ninf
  | .nan => .special .nan

/-- Exactness test: `x` is an exact integer (CPython `float.is_integer`). -/
def isIntR (x : ℝ) : Prop := (⌊x⌋ : ℝ) = x

section Arith

open Classical in
/-- Round to nearest, ties to even (the rounding used by IEEE `remainder`). -/
noncomputable def roundEven (q : ℝ) : ℤ :=
  let n := ⌊q + 1 / 2⌋
  if q + 1 / 2 = (n : ℝ) ∧ Odd n then n - 1 else n

/-- Truncation toward zero (CPython `math.trunc` on floats). -/
noncomputable def truncR (x : ℝ) : ℤ := if 0 ≤ x then ⌊x⌋ else ⌈x⌉

noncomputable def rfNeg : RF → RF
  | .fin x => .fin (-x)
  | .pinf => .ninf
  | .ninf => .pinf
  | .nan => .nan

noncomputable def rfAdd : RF → RF → RF
  | .nan, _ => .nan
  | _, .nan => .nan
  | .pinf, .ninf => .nan
  | .ninf, .pinf => .nan
  | .pinf, _ => .pinf
  | _, .pinf => .pinf
  | .ninf, _ => .ninf
  | _, .ninf => .ninf
  | .fin x, .fin y => .fin (x + y)

noncomputable def rfSub (a b : RF) : RF := rfAdd a (rfNeg b)

open Classical in
noncomputable def rfMul : RF → RF → RF
  | .nan, _ => .nan
  | _, .nan => .nan
  | .pinf, .pinf => .pinf
  | .pinf, .ninf => .ninf
  | .ninf, .pinf => .ninf
  | .ninf, .ninf => .pinf
  | .pinf, .fin y => if 0 < y then .pinf else if y < 0 then .ninf else .nan
  | .fin x, .pinf => if 0 < x then .pinf else if x < 0 then .ninf else .nan
  | .ninf, .fin y => if 0 < y then .ninf else if y < 0 then .pinf else .nan
  | .fin x, .ninf => if 0 < x then .ninf else if x < 0 then .pinf else .nan
  | .fin x, .fin y => .fin (x * y)

open Classical in
/-- True division on non-zero divisors (the evaluator's own `r == 0` guard
runs first, so a zero finite divisor never reaches this). -/
noncomputable def rfDiv : RF → RF → RF
  | .nan, _ => .nan
  | _, .nan => .nan
  | .pinf, .pinf => .nan
  | .pinf, .ninf => .nan
  | .ninf, .pinf => .nan
  | .ninf, .ninf => .nan
  | .fin _, .pinf => .fin 0
  | .fin _, .ninf => .fin 0
  | .pinf, .fin y => if y < 0 then .ninf else .pinf
  | .ninf, .fin y => if y < 0 then .pinf else .ninf
  | .fin x, .fin y => .fin (x / y)

open Classical in
/-- CPython float `%`: result carries the divisor's sign;
`x % ±inf` returns `x` when the signs agree and `±inf` otherwise; a zero
divisor raises `ZeroDivisionError`. -/
noncomputable def rfMod : RF → RF → Except PyExc RF
  | .nan, _ => .ok .nan
  | _, .nan => .ok .nan
  | .pinf, _ => .ok .nan
  | .ninf, _ => .ok .nan
  | .fin x, .pinf => if 0 ≤ x then .ok (.fin x) else .ok .pinf
  | .fin x, .ninf => if x ≤ 0 then .ok (.fin x) else .ok .ninf
  | .fin x, .fin y =>
    if y = 0 then .error .zeroDivisionError
    else .ok (.fin (x - y * ⌊x / y⌋))

open Classical in
/-- CPython float `**` (also reached for `int ** int` with mixed floats):
IEEE `pow` special cases, `ZeroDivisionError` on `0.0 ** negative`, and a
*complex* result for a negative base with a non-integral exponent. -/
noncomputable def rfPow : RF → RF → Except PyExc Value
  | .fin x, .nan => if x = 1 then .ok (.float 1) else .ok (.special .nan)
  | .nan, .fin y => if y = 0 then .ok (.float 1) else .ok (.special .nan)
  | .nan, _ => .ok (.special .nan)
  | _, .nan => .ok (.special .nan)
  | .pinf, .fin y =>
    if 0 < y then .ok (.special .pinf)
    else if y = 0 then .ok (.float 1)
    else .ok (.float 0)
  | .pinf, .pinf => .ok (.special .pinf)
  | .pinf, .ninf => .ok (.float 0)
  | .ninf, .fin y =>
    if y = 0 then .ok (.float 1)
    else if isIntR y ∧ Odd ⌊y⌋ then
      (if 0 < y then .ok (.special .ninf) else .ok (.float 0))
    else (if 0 < y then .ok (.special .pinf) else .ok (.float 0))
  | .ninf, .pinf => .ok (.special .pinf)
  | .ninf, .ninf => .ok (.float 0)
  | .fin x, .pinf =>
    if 1 < |x| then .ok (.special .pinf)
    else if |x| = 1 then .ok (.float 1)
    else .ok (.float 0)
  | .fin x, .ninf =>
    if 1 < |x| then .ok (.float 0)
    else if |x| = 1 then .ok (.float 1)
    else .ok (.special .pinf)
  | .fin x, .fin y =>
    if x = 0 then
      (if 0 < y then .ok (.float 0)
       else if y = 0 then .ok (.float 1)
       else .error .zeroDivisionError)
    else if 0 < x then .ok (.float (Real.rpow x y))
    else if isIntR y then .ok (.float (x ^ ⌊y⌋))
    else .ok (.complex (Complex.cpow x y))

end Arith

section Ops

/-- CPython `r == 0`, as tested by the evaluator's division guard: numeric
zero of any numeric type (including `False` and `0j`); function objects and
non-finite floats are never equal to `0`. -/
def pyIsZero : Value → Prop
  | .int n => n = 0
  | .bool b => b = false
  | .float x => x = 0
  | .complex z => z = 0
  | .special _ => False
  | .fn _ => False

/-- Decidability that actually computes on `int`/`bool` values (so the common
integer paths of the evaluator reduce definitionally) and falls back to
classical choice on the real-valued ones. -/
noncomputable instance pyIsZero.dec : (v : Value) → Decidable (pyIsZero v)
  | .int n => inferInstanceAs (Decidable (n = 0))
  | .bool b => inferInstanceAs (Decidable (b = false))
  | .float _ => Classical.propDecidable _
  | .complex _ => Classical.propDecidable _
  | .special _ => inferInstanceAs (Decidable False)
  | .fn _ => inferInstanceAs (Decidable False)

/-- CPython `l + r` on `safe_eval` values.  Mixed complex/non-finite
operands (a complex with an infinite component) fall outside the idealized
`ℂ`; they are modelled as `nan`.  A function-object operand raises
`TypeError`, which the walker does not catch. -/
noncomputable def pyAdd (l r : Value) : Except PyExc Value :=
  match l.promote, r.promote with
  | .fn _, _ => .error .typeError
  | _, .fn _ => .error .typeError
  | .int a, .int b => .ok (.int (a + b))
  | .complex _, _ | _, .complex _ =>
    (match toC l.promote, toC r.promote with
     | some a, some b => .ok (.complex (a + b))
     | _, _ => .ok (.special .nan))
  | a, b =>
    (match toRF a, toRF b with
     | some x, some y => .ok (rfToValue (rfAdd x y))
     | _, _ => .error .typeError)

/-- CPython `l - r`. -/
noncomputable def pySub (l r : Value) : Except PyExc Value :=
  match l.promote, r.promote with
  | .fn _, _ => .error .typeError
  | _, .fn _ => .error .typeError
  | .int a, .int b => .ok (.int (a - b))
  | .complex _, _ | _, .complex _ =>
    (match toC l.promote, toC r.promote with
     | some a, some b => .ok (.complex (a - b))
     | _, _ => .ok (.special .nan))
  | a, b =>
    (match toRF a, toRF b with
     | some x, some y => .ok (rfToValue (rfSub x y))
     | _, _ => .error .typeError)

/-- CPython `l * r`. -/
noncomputable def pyMul (l r : Value) : Except PyExc Value :=
  match l.promote, r.promote with
  | .fn _, _ => .error .typeError
  | _, .fn _ => .error .typeError
  | .int a, .int b => .ok (.int (a * b))
  | .complex _, _ | _, .complex _ =>
    (match toC l.promote, toC r.promote with
     | some a, some b => .ok (.complex (a * b))
     | _, _ => .ok (.special .nan))
  | a, b =>
    (match toRF a, toRF b with
     | some x, some y => .ok (rfToValue (rfMul x y))
     | _, _ => .error .typeError)

/-- CPython `l / r`, reached only after the evaluator's `r == 0` guard;
`int / int` is true division and yields a float. -/
noncomputable def pyDiv (l r : Value) : Except PyExc Value :=
  match l.promote, r.promote with
  | .fn _, _ => .error .typeError
  | _, .fn _ => .error .typeError
  | .int a, .int b => .ok (.float ((a : ℝ) / (b : ℝ)))
  | .complex _, _ | _, .complex _ =>
    (match toC l.promote, toC r.promote with
     | some a, some b => .ok (.complex (a / b))
     | _, _ => .ok (.special .nan))
  | a, b =>
    (match toRF a, toRF b with
     | some x, some y => .ok (rfToValue (rfDiv x y))
     | _, _ => .error .typeError)

/-- CPython `l % r`.  The walker has no guard here: a zero divisor raises a
raw `ZeroDivisionError`; a complex operand raises a raw `TypeError` (CPython 3
removed `%` on complex). -/
noncomputable def pyMod (l r : Value) : Except PyExc Value :=
  match l.promote, r.promote with
  | .fn _, _ => .error .typeError
  | _, .fn _ => .error .typeError
  | .complex _, _ => .error .typeError
  | _, .complex _ => .error .typeError
  | .int a, .int b =>
    if b = 0 then .error .zeroDivisionError else .ok (.int (Int.fmod a b))
  | a, b =>
    (match toRF a, toRF b with
     | some x, some y => (rfMod x y).map rfToValue
     | _, _ => .error .typeError)

/-- CPython `l ** r`.  `int ** int` with a non-negative exponent stays an
`int`; a negative exponent yields a float (or `ZeroDivisionError` on base 0);
any complex operand uses the principal branch; otherwise float `**`
(`rfPow`), which can itself produce a complex value. -/
noncomputable def pyPow (l r : Value) : Except PyExc Value :=
  match l.promote, r.promote with
  | .fn _, _ => .error .typeError
  | _, .fn _ => .error .typeError
  | .int a, .int b =>
    if 0 ≤ b then .ok (.int (a ^ b.toNat))
    else if a = 0 then .error .zeroDivisionError
    else .ok (.float ((a : ℝ) ^ b))
  | .complex _, _ | _, .complex _ =>
    (match toC l.promote, toC r.promote with
     | some a, some b =>
       if a = 0 then
         (if b = 0 then .ok (.complex 1)
          else if b.im = 0 ∧ 0 < b.re then .ok (.complex 0)
          else .error .zeroDivisionError)
       else .ok (.complex (Complex.cpow a b))
     | _, _ => .ok (.special .nan))
  | a, b =>
    (match toRF a, toRF b with
     | some x, some y => rfPow x y
     | _, _ => .error .typeError)

/-- CPython unary `-`; on a function object it raises a raw `TypeError`. -/
noncomputable def pyNeg (v : Value) : Except PyExc Value :=
  match v.promote with
  | .int n => .ok (.int (-n))
  | .bool b => .ok (.int (-(if b then 1 else 0)))
  | .float x => .ok (.float (-x))
  | .complex z => .ok (.complex (-z))
  | .special .pinf => .ok (.special .ninf)
  | .special .ninf => .ok (.special .pinf)
  | .special .nan => .ok (.special .nan)
  | .fn _ => .error .typeError

/-- CPython unary `+`; promotes `bool` to `int`, raises `TypeError` on a
function object, and is the identity elsewhere. -/
noncomputable def pyPos (v : Value) : Except PyExc Value :=
  match v.promote with
  | .fn _ => .error .typeError
  | w => .ok w

end Ops

/-! ## Registry function semantics

Semantics of applying each registry callable to a list of already-evaluated
argument values.  `none` models "some exception was raised", which the walker
turns into `EvalError("Function error")` — CPython's arity errors
(`TypeError`), type errors, and domain errors (`ValueError`) are therefore
deliberately *not* distinguished here, exactly as in the source.  Functions
whose actual results fall outside the modelled value domain (tuples from
`frexp`/`modf`, bit-level floats from `nextafter`/`ulp`) are modelled as
failing; `dist`/`fsum`/`prod` genuinely raise `TypeError` on numeric
arguments (they expect iterables).
-/

section Fns

/-- The Gauss error integral, the semantics of `math.erf`. -/
noncomputable def erfR (x : ℝ) : ℝ :=
  (2 / Real.sqrt Real.pi) * intervalIntegral (fun t => Real.exp (-(t ^ 2))) 0 x MeasureTheory.volume

noncomputable def arcoshR (x : ℝ) : ℝ := Real.log (x + Real.sqrt (x ^ 2 - 1))

noncomputable def artanhR (x : ℝ) : ℝ := Real.log ((1 + x) / (1 - x)) / 2

open Classical in
noncomputable def cbrtR (x : ℝ) : ℝ :=
  if x < 0 then -Real.rpow (-x) (1 / 3) else Real.rpow x (1 / 3)

/-- Two-argument arctangent: `atan2(y, x)` is the argument of `x + y*I`. -/
noncomputable def atan2R (y x : ℝ) : ℝ := Complex.arg ⟨x, y⟩

/-- Arguments accepted where CPython requires an `int` (`bool` counts). -/
def intArg : Value → Option ℤ
  | .int n => some n
  | .bool b => some (if b then 1 else 0)
  | _ => none

def intArgs : List Value → Option (List ℤ) := List.mapM intArg

open Classical in
/-- Combinator for the 1-argument real `math` functions: reject anything not
convertible to a float, apply `f` on the domain `dom` (raising `ValueError`,
i.e. `none`, outside it), propagate `nan`, and use the given results at
`±inf`. -/
noncomputable def rfUnary (f : ℝ → ℝ) (dom : ℝ → Prop) (onPinf onNinf : Option Value) :
    List Value → Option Value
  | [v] =>
    (match toRF v with
     | some (.fin x) => if dom x then some (.float (f x)) else none
     | some .nan => some (.special .nan)
     | some .pinf => onPinf
     | some .ninf => onNinf
     | none => none)
  | _ => none

def isInfRF : RF → Bool
  | .pinf => true
  | .ninf => true
  | _ => false

def isNanRF : RF → Bool
  | .nan => true
  | _ => false

def finRF : RF → ℝ
  | .fin x => x
  | _ => 0

/-- Application of the registry's callables, one definition per `math`-module
function (`applyFn` below dispatches on the function object). -/
noncomputable def mathAcos : List Value → Option Value :=
  rfUnary Real.arccos (fun x => -1 ≤ x ∧ x ≤ 1) none none

noncomputable def mathAcosh : List Value → Option Value :=
  rfUnary arcoshR (fun x => 1 ≤ x) (some (.special .pinf)) none

noncomputable def mathAsin : List Value → Option Value :=
  rfUnary Real.arcsin (fun x => -1 ≤ x ∧ x ≤ 1) none none

noncomputable def mathAsinh : List Value → Option Value :=
  rfUnary Real.arsinh (fun _ => True) (some (.special .pinf)) (some (.special .ninf))

noncomputable def mathAtan : List Value → Option Value :=
  rfUnary Real.arctan (fun _ => True)
    (some (.float (Real.pi / 2))) (some (.float (-(Real.pi / 2))))

open Classical in
noncomputable def mathAtan2 : List Value → Option Value
  | [a, b] =>
    (match toRF a, toRF b with
     | some .nan, some _ => some (.special .nan)
     | some _, some .nan => some (.special .nan)
     | some (.fin y), some (.fin x) => some (.float (atan2R y x))
     | some (.fin _), some .pinf => some (.float 0)
     | some (.fin y), some .ninf => some (.float (if y < 0 then -Real.pi else Real.pi))
     | some .pinf, some (.fin _) => some (.float (Real.pi / 2))
     | some .ninf, some (.fin _) => some (.float (-(Real.pi / 2)))
     | some .pinf, some .pinf => some (.float (Real.pi / 4))
     | some .pinf, some .ninf => some (.float (3 * Real.pi / 4))
     | some .ninf, some .pinf => some (.float (-(Real.pi / 4)))
     | some .ninf, some .ninf => some (.float (-(3 * Real.pi / 4)))
     | _, _ => none)
  | _ => none

noncomputable def mathAtanh : List Value → Option Value :=
  rfUnary artanhR (fun x => -1 < x ∧ x < 1) none none

noncomputable def mathCbrt : List Value → Option Value :=
  rfUnary cbrtR (fun _ => True) (some (.special .pinf)) (some (.special .ninf))

noncomputable def mathCeil : List Value → Option Value
  | [v] =>
    (match v.promote with
     | .int n => some (.int n)
     | .float x => some (.int ⌈x⌉)
     | _ => none)
  | _ => none

def mathComb : List Value → Option Value
  | [a, b] =>
    (match intArg a, intArg b with
     | some n, some k =>
       if 0 ≤ n ∧ 0 ≤ k then some (.int (Nat.choose n.toNat k.toNat)) else none
     | _, _ => none)
  | _ => none

open Classical in
noncomputable def mathCopysign : List Value → Option Value
  | [a, b] =>
    (match toRF a, toRF b with
     | some .nan, some _ => some (.special .nan)
     | some (.fin x), some (.fin y) => some (.float (if y < 0 then -|x| else |x|))
     | some (.fin x), some .pinf => some (.float |x|)
     | some (.fin x), some .ninf => some (.float (-|x|))
     | some (.fin x), some .nan => some (.float |x|)
     | some .pinf, some (.fin y) => some (.special (if y < 0 then .ninf else .pinf))
     | some .ninf, some (.fin y) => some (.special (if y < 0 then .ninf else .pinf))
     | some .pinf, some .pinf => some (.special .pinf)
     | some .pinf, some .ninf => some (.special .ninf)
     | some .pinf, some .nan => some (.special .pinf)
     | some .ninf, some .pinf => some (.special .pinf)
     | some .ninf, some .ninf => some (.special .ninf)
     | some .ninf, some .nan => some (.special .pinf)
     | _, _ => none)
  | _ => none

noncomputable def mathCos : List Value → Option Value :=
  rfUnary Real.cos (fun _ => True) none none

noncomputable def mathCosh : List Value → Option Value :=
  rfUnary Real.cosh (fun _ => True) (some (.special .pinf)) (some (.special .pinf))

noncomputable def mathDegrees : List Value → Option Value :=
  rfUnary (fun x => x * 180 / Real.pi) (fun _ => True)
    (some (.special .pinf)) (some (.special .ninf))

noncomputable def mathErf : List Value → Option Value :=
  rfUnary erfR (fun _ => True) (some (.float 1)) (some (.float (-1)))

noncomputable def mathErfc : List Value → Option Value :=
  rfUnary (fun x => 1 - erfR x) (fun _ => True) (some (.float 0)) (some (.float 2))

noncomputable def mathExp : List Value → Option Value :=
  rfUnary Real.exp (fun _ => True) (some (.special .pinf)) (some (.float 0))

noncomputable def mathExp2 : List Value → Option Value :=
  rfUnary (fun x => Real.rpow 2 x) (fun _ => True) (some (.special .pinf)) (some (.float 0))

noncomputable def mathExpm1 : List Value → Option Value :=
  rfUnary (fun x => Real.exp x - 1) (fun _ => True)
    (some (.special .pinf)) (some (.float (-1)))

noncomputable def mathFabs : List Value → Option Value :=
  rfUnary (fun x => |x|) (fun _ => True) (some (.special .pinf)) (some (.special .pinf))

open Classical in
noncomputable def mathFactorial : List Value → Option Value
  | [v] =>
    (match v.promote with
     | .int n => if 0 ≤ n then some (.int (Nat.factorial n.toNat)) else none
     | .float x =>
       if isIntR x ∧ 0 ≤ x then some (.int (Nat.factorial (⌊x⌋).toNat)) else none
     | _ => none)
  | _ => none

noncomputable def mathFloor : List Value → Option Value
  | [v] =>
    (match v.promote with
     | .int n => some (.int n)
     | .float x => some (.int ⌊x⌋)
     | _ => none)
  | _ => none

open Classical in
noncomputable def mathFmod : List Value → Option Value
  | [a, b] =>
    (match toRF a, toRF b with
     | some .nan, some _ => some (.special .nan)
     | some _, some .nan => some (.special .nan)
     | some (.fin x), some .pinf => some (.float x)
     | some (.fin x), some .ninf => some (.float x)
     | some (.fin x), some (.fin y) =>
       if y = 0 then none else some (.float (x - y * (truncR (x / y) : ℝ)))
     | some _, some _ => none
     | _, _ => none)
  | _ => none

noncomputable def mathGamma : List Value → Option Value :=
  rfUnary Real.Gamma (fun x => ¬(x ≤ 0 ∧ isIntR x)) (some (.special .pinf)) none

def mathGcd : List Value → Option Value := fun args =>
  match intArgs args with
  | some ns => some (.int ((ns.foldl (fun (a : ℕ) n => Nat.gcd a n.natAbs) 0 : ℕ)))
  | none => none

noncomputable def mathHypot : List Value → Option Value := fun args =>
  match args.mapM toRF with
  | some rs =>
    if rs.any isInfRF then some (.special .pinf)
    else if rs.any isNanRF then some (.special .nan)
    else some (.float (Real.sqrt ((rs.map (fun r => finRF r ^ 2)).sum)))
  | none => none

open Classical in
noncomputable def mathIsclose : List Value → Option Value
  | [a, b] =>
    (match toRF a, toRF b with
     | some .nan, some _ => some (.bool false)
     | some _, some .nan => some (.bool false)
     | some (.fin x), some (.fin y) =>
       some (.bool (if |x - y| ≤ 1 / 1000000000 * max |x| |y| then true else false))
     | some .pinf, some .pinf => some (.bool true)
     | some .ninf, some .ninf => some (.bool true)
     | some _, some _ => some (.bool false)
     | _, _ => none)
  | _ => none

def mathIsfinite : List Value → Option Value
  | [v] =>
    (match toRF v with
     | some (.fin _) => some (.bool true)
     | some _ => some (.bool false)
     | none => none)
  | _ => none

def mathIsinf : List Value → Option Value
  | [v] =>
    (match toRF v with
     | some r => some (.bool (isInfRF r))
     | none => none)
  | _ => none

def mathIsnan : List Value → Option Value
  | [v] =>
    (match toRF v with
     | some r => some (.bool (isNanRF r))
     | none => none)
  | _ => none

def mathIsqrt : List Value → Option Value
  | [v] =>
    (match intArg v with
     | some n => if 0 ≤ n then some (.int (Nat.sqrt n.toNat)) else none
     | none => none)
  | _ => none

def mathLcm : List Value → Option Value := fun args =>
  match intArgs args with
  | some ns => some (.int ((ns.foldl (fun (a : ℕ) n => Nat.lcm a n.natAbs) 1 : ℕ)))
  | none => none

noncomputable def mathLdexp : List Value → Option Value
  | [a, b] =>
    (match toRF a, intArg b with
     | some (.fin x), some i => some (.float (x * (2 : ℝ) ^ i))
     | some .pinf, some _ => some (.special .pinf)
     | some .ninf, some _ => some (.special .ninf)
     | some .nan, some _ => some (.special .nan)
     | _, _ => none)
  | _ => none

noncomputable def mathLgamma : List Value → Option Value :=
  rfUnary (fun x => Real.log |Real.Gamma x|) (fun x => ¬(x ≤ 0 ∧ isIntR x))
    (some (.special .pinf)) (some (.special .pinf))

open Classical in
/-- Semantics of `math.log`: natural log with an optional base argument. -/
noncomputable def mathLogNat : List Value → Option Value
  | [v] =>
    rfUnary Real.log (fun x => 0 < x) (some (.special .pinf)) none [v]
  | [a, b] =>
    (match toRF a, toRF b with
     | some .nan, some _ => some (.special .nan)
     | some _, some .nan => some (.special .nan)
     | some (.fin x), some (.fin y) =>
       if 0 < x ∧ 0 < y ∧ y ≠ 1 then some (.float (Real.logb y x)) else none
     | some (.fin x), some .pinf => if 0 < x then some (.float 0) else none
     | some .pinf, some (.fin y) =>
       if 1 < y then some (.special .pinf)
       else if 0 < y ∧ y < 1 then some (.special .ninf)
       else none
     | some _, some _ => none
     | _, _ => none)
  | _ => none

noncomputable def mathLog10 : List Value → Option Value :=
  rfUnary (Real.logb 10) (fun x => 0 < x) (some (.special .pinf)) none

noncomputable def mathLog1p : List Value → Option Value :=
  rfUnary (fun x => Real.log (1 + x)) (fun x => -1 < x) (some (.special .pinf)) none

noncomputable def mathLog2 : List Value → Option Value :=
  rfUnary (Real.logb 2) (fun x => 0 < x) (some (.special .pinf)) none

def mathPerm : List Value → Option Value
  | [a] =>
    (match intArg a with
     | some n => if 0 ≤ n then some (.int (Nat.factorial n.toNat)) else none
     | none => none)
  | [a, b] =>
    (match intArg a, intArg b with
     | some n, some k =>
       if 0 ≤ n ∧ 0 ≤ k then some (.int (Nat.descFactorial n.toNat k.toNat)) else none
     | _, _ => none)
  | _ => none

/-- The builtin `pow`: 2 arguments delegate to the `**` semantics (with every
exception collapsed to failure); 3 arguments is integer modular
exponentiation, with a modular inverse required for negative exponents. -/
noncomputable def mathPowB : List Value → Option Value
  | [a, b] =>
    (match pyPow a b with
     | .ok v => some v
     | .error _ => none)
  | [a, b, c] =>
    (match intArg a, intArg b, intArg c with
     | some bb, some ee, some mm =>
       if mm = 0 then none
       else if 0 ≤ ee then some (.int (Int.fmod (bb ^ ee.toNat) mm))
       else
         let mP := mm.natAbs
         let bP := (Int.fmod bb (mP : ℤ)).toNat
         if Nat.gcd bP mP = 1 then
           some (.int (Int.fmod ((Nat.gcdA bP mP) ^ ee.natAbs) mm))
         else none
     | _, _, _ => none)
  | _ => none

noncomputable def mathRadians : List Value → Option Value :=
  rfUnary (fun x => x * Real.pi / 180) (fun _ => True)
    (some (.special .pinf)) (some (.special .ninf))

open Classical in
noncomputable def mathRemainder : List Value → Option Value
  | [a, b] =>
    (match toRF a, toRF b with
     | some .nan, some _ => some (.special .nan)
     | some _, some .nan => some (.special .nan)
     | some (.fin x), some .pinf => some (.float x)
     | some (.fin x), some .ninf => some (.float x)
     | some (.fin x), some (.fin y) =>
       if y = 0 then none else some (.float (x - y * (roundEven (x / y) : ℝ)))
     | some _, some _ => none
     | _, _ => none)
  | _ => none

noncomputable def mathSin : List Value → Option Value :=
  rfUnary Real.sin (fun _ => True) none none

noncomputable def mathSinh : List Value → Option Value :=
  rfUnary Real.sinh (fun _ => True) (some (.special .pinf)) (some (.special .ninf))

noncomputable def mathSqrt : List Value → Option Value :=
  rfUnary Real.sqrt (fun x => 0 ≤ x) (some (.special .pinf)) none

noncomputable def mathTan : List Value → Option Value :=
  rfUnary Real.tan (fun _ => True) none none

noncomputable def mathTanh : List Value → Option Value :=
  rfUnary Real.tanh (fun _ => True) (some (.float 1)) (some (.float (-1)))

noncomputable def mathTrunc : List Value → Option Value
  | [v] =>
    (match v.promote with
     | .int n => some (.int n)
     | .float x => some (.int (truncR x))
     | _ => none)
  | _ => none

noncomputable def mathAbsB : List Value → Option Value
  | [v] =>
    (match v.promote with
     | .int n => some (.int |n|)
     | .bool b => some (.int (if b then 1 else 0))
     | .float x => some (.float |x|)
     | .complex z => some (.float (Complex.abs z))
     | .special .pinf => some (.special .pinf)
     | .special .ninf => some (.special .pinf)
     | .special .nan => some (.special .nan)
     | .fn _ => none)
  | _ => none

/-- Dispatch from registry function objects to their semantics.  The
functions whose actual results fall outside the modelled value domain
(`frexp`/`modf` return tuples, `nextafter`/`ulp` depend on the binary64
representation) are modelled as failing; `dist`/`fsum`/`prod` genuinely raise
`TypeError` on numeric arguments (they expect iterables). -/
noncomputable def applyFn : MathFn → List Value → Option Value
  | .acos => mathAcos
  | .acosh => mathAcosh
  | .asin => mathAsin
  | .asinh => mathAsinh
  | .atan => mathAtan
  | .atan2 => mathAtan2
  | .atanh => mathAtanh
  | .cbrt => mathCbrt
  | .ceil => mathCeil
  | .comb => mathComb
  | .copysign => mathCopysign
  | .cos => mathCos
  | .cosh => mathCosh
  | .degrees => mathDegrees
  | .dist => fun _ => none
  | .erf => mathErf
  | .erfc => mathErfc
  | .exp => mathExp
  | .exp2 => mathExp2
  | .expm1 => mathExpm1
  | .fabs => mathFabs
  | .factorial => mathFactorial
  | .floor => mathFloor
  | .fmod => mathFmod
  | .frexp => fun _ => none
  | .fsum => fun _ => none
  | .gamma => mathGamma
  | .gcd => mathGcd
  | .hypot => mathHypot
  | .isclose => mathIsclose
  | .isfinite => mathIsfinite
  | .isinf => mathIsinf
  | .isnan => mathIsnan
  | .isqrt => mathIsqrt
  | .lcm => mathLcm
  | .ldexp => mathLdexp
  | .lgamma => mathLgamma
  | .logNat => mathLogNat
  | .log10 => mathLog10
  | .log1p => mathLog1p
  | .log2 => mathLog2
  | .modf => fun _ => none
  | .nextafter => fun _ => none
  | .perm => mathPerm
  | .powB => mathPowB
  | .prod => fun _ => none
  | .radians => mathRadians
  | .remainder => mathRemainder
  | .sin => mathSin
  | .sinh => mathSinh
  | .sqrt => mathSqrt
  | .tan => mathTan
  | .tanh => mathTanh
  | .trunc => mathTrunc
  | .ulp => fun _ => none
  | .absB => mathAbsB

end Fns

/-! ## The capability registry

`SAFE_MATH = {k: getattr(math, k) for k in dir(math) if not k.startswith("__")}`
followed by
`SAFE_MATH.update({"pi": math.pi, "e": math.e, "sqrt": math.sqrt, "ln": math.log,
"log": math.log10, "pow": pow, "abs": abs, "factorial": math.factorial})`.

The association list below is that dictionary: one entry per key, with the
update's bindings in effect (`"log" ↦ math.log10`, `"pow" ↦` builtin `pow`,
`"ln"` and `"abs"` as extra keys; `"pi"`, `"e"`, `"sqrt"`, `"factorial"` are
re-bound to the values they already had).  The name set is `dir(math)` of
CPython 3.11.
-/

noncomputable def SAFE_LIST : List (String × Value) :=
  [("pi", .float Real.pi), ("e", .float (Real.exp 1)),
   ("sqrt", .fn .sqrt), ("ln", .fn .logNat), ("log", .fn .log10),
   ("pow", .fn .powB), ("abs", .fn .absB), ("factorial", .fn .factorial),
   ("acos", .fn .acos), ("acosh", .fn .acosh), ("asin", .fn .asin),
   ("asinh", .fn .asinh), ("atan", .fn .atan), ("atan2", .fn .atan2),
   ("atanh", .fn .atanh), ("cbrt", .fn .cbrt), ("ceil", .fn .ceil),
   ("comb", .fn .comb), ("copysign", .fn .copysign), ("cos", .fn .cos),
   ("cosh", .fn .cosh), ("degrees", .fn .degrees), ("dist", .fn .dist),
   ("erf", .fn .erf), ("erfc", .fn .erfc), ("exp", .fn .exp),
   ("exp2", .fn .exp2), ("expm1", .fn .expm1), ("fabs", .fn .fabs),
   ("floor", .fn .floor), ("fmod", .fn .fmod), ("frexp", .fn .frexp),
   ("fsum", .fn .fsum), ("gamma", .fn .gamma), ("gcd", .fn .gcd),
   ("hypot", .fn .hypot), ("inf", .special .pinf), ("isclose", .fn .isclose),
   ("isfinite", .fn .isfinite), ("isinf", .fn .isinf), ("isnan", .fn .isnan),
   ("isqrt", .fn .isqrt), ("lcm", .fn .lcm), ("ldexp", .fn .ldexp),
   ("lgamma", .fn .lgamma), ("log10", .fn .log10), ("log1p", .fn .log1p),
   ("log2", .fn .log2), ("modf", .fn .modf), ("nan", .special .nan),
   ("nextafter", .fn .nextafter), ("perm", .fn .perm), ("prod", .fn .prod),
   ("radians", .fn .radians), ("remainder", .fn .remainder), ("sin", .fn .sin),
   ("sinh", .fn .sinh), ("tan", .fn .tan), ("tanh", .fn .tanh),
   ("tau", .float (2 * Real.pi)), ("trunc", .fn .trunc), ("ulp", .fn .ulp)]

noncomputable def SAFE_MATH (n : String) : Option Value := SAFE_LIST.lookup n

/-! ## The AST walker `_eval` and `safe_eval` -/

mutual

/-- The recursive walker `_eval` of `safe_eval`, one case per `isinstance`
branch, in source order.  Unhandled operator kinds surface as the
corresponding `"Unsupported ..."` errors *after* operand evaluation, exactly
as in the source; exceptions raised by `%`, `**` and unary operators
propagate untyped. -/
noncomputable def evalE : Expr → Except PyExc Value
  | .lit (.intL n) => .ok (.int n)
  | .lit (.floatL m k) => .ok (.float (m / 10 ^ k))
  | .binOp op l r => do
    let lv ← evalE l
    let rv ← evalE r
    match op with
    | .add => pyAdd lv rv
    | .sub => pySub lv rv
    | .mul => pyMul lv rv
    | .div =>
      if pyIsZero rv then .error (.evalError .divisionByZero) else pyDiv lv rv
    | .mod => pyMod lv rv
    | .pow => pyPow lv rv
    | .floordiv => .error (.evalError .unsupportedBinOp)
  | .unaryOp op e => do
    let v ← evalE e
    match op with
    | .neg => pyNeg v
    | .pos => pyPos v
    | .invert => .error (.evalError .unsupportedUnaryOp)
  | .call f args =>
    (match f with
     | .name fname =>
       (match SAFE_MATH fname with
        | none => .error (.evalError (.functionNotAllowed fname))
        | some fv => do
          let vs ← evalArgs args
          (match fv with
           | .fn g =>
             (match applyFn g vs with
              | some v => .ok v
              | none => .error (.evalError .functionError))
           | _ => .error (.evalError .functionError)))
     | _ => .error (.evalError .invalidFunction))
  | .name n =>
    (match SAFE_MATH n with
     | some v => .ok v
     | none => .error (.evalError .nameNotAllowed))

/-- Argument evaluation `[_eval(a) for a in node.args]`: left-to-right, errors propagate raw. -/
noncomputable def evalArgs : List Expr → Except PyExc (List Value)
  | [] => .ok []
  | a :: rest => do
    let v ← evalE a
    let vs ← evalArgs rest
    .ok (v :: vs)

end

/-- The glyph cleanup at the top of `safe_eval`:
`expr.replace("×","*").replace("÷","/").replace("^","**").replace("√","sqrt")`.
Each pattern is a single character and no replacement string contains any of
the four pattern characters, so the chain of `str.replace` calls equals this
single character-level pass. -/
def charNorm (c : Char) : List Char :=
  if c = '×' then ['*']
  else if c = '÷' then ['/']
  else if c = '^' then ['*', '*']
  else if c = '√' then ['s', 'q', 'r', 't']
  else [c]

def normalize (s : String) : String := ⟨s.data.flatMap charNorm⟩

/-- The final `isinstance(result, complex)` check of `safe_eval`: a complex
*final* value (regardless of its imaginary part — the check is on the CPython
type) becomes `EvalError("Complex result not supported")`. -/
def postC : Except PyExc Value → Except PyExc Value
  | .ok (.complex _) => .error (.evalError .complexResult)
  | r => r

/-- The complete `safe_eval`: normalize glyphs, parse (any failure becomes
`EvalError("Syntax error")`), walk the tree, and reject a complex *final*
result. -/
noncomputable def safe_eval (s : String) : Except PyExc Value :=
  match parseStr (normalize s) with
  | none => .error (.evalError .syntaxError)
  | some ast => postC (evalE ast)


/-! ## Shared evaluation lemmas -/

lemma safe_eval_parsed (s : String) (a : Expr) (hp : parseStr (normalize s) = some a) :
    safe_eval s = postC (evalE a) := by
  unfold safe_eval
  rw [hp]

lemma evalE_call_fn (fname : String) (g : MathFn) (args : List Expr) (vs : List Value)
    (hm : SAFE_MATH fname = some (.fn g)) (ha : evalArgs args = .ok vs) :
    evalE (.call (.name fname) args) =
      match applyFn g vs with
      | some v => .ok v
      | none => .error (.evalError .functionError) := by
  simp [evalE, hm, ha]
  rfl

lemma evalE_binOp_vals (op : BinK) (l r : Expr) (lv rv : Value)
    (hl : evalE l = .ok lv) (hr : evalE r = .ok rv) :
    evalE (.binOp op l r) =
      match op with
      | .add => pyAdd lv rv
      | .sub => pySub lv rv
      | .mul => pyMul lv rv
      | .div => if pyIsZero rv then .error (.evalError .divisionByZero) else pyDiv lv rv
      | .mod => pyMod lv rv
      | .pow => pyPow lv rv
      | .floordiv => .error (.evalError .unsupportedBinOp) := by
  simp [evalE, hl, hr]
  rfl

lemma cpow_neg_one_half : Complex.cpow (-1) (1 / 2) = Complex.I := by
  have he : Complex.cpow (-1) (1 / 2) = (-1 : ℂ) ^ ((1 / 2 : ℂ)) := rfl
  rw [he, Complex.cpow_def_of_ne_zero (by norm_num), Complex.log_neg_one]
  rw [show (Real.pi : ℂ) * Complex.I * (1 / 2) = ((Real.pi / 2 : ℝ) : ℂ) * Complex.I by
    push_cast; ring]
  rw [Complex.exp_mul_I, ← Complex.ofReal_cos, ← Complex.ofReal_sin]
  simp [Real.cos_pi_div_two, Real.sin_pi_div_two]

lemma applyFn_sqrt_neg : applyFn .sqrt [.int (-1)] = none := by
  simp only [applyFn, mathSqrt, rfUnary, toRF]
  rw [if_neg]
  push_cast
  norm_num

lemma applyFn_sqrt_nine : applyFn .sqrt [.int 9] = some (.float 3) := by
  simp only [applyFn, mathSqrt, rfUnary, toRF]
  rw [if_pos (by positivity)]
  congr 2
  rw [show (((9 : ℤ) : ℝ)) = 3 ^ 2 by norm_num, Real.sqrt_sq (by norm_num : (0:ℝ) ≤ 3)]

lemma applyFn_gamma_three : applyFn .gamma [.int 3] = some (.float 2) := by
  simp only [applyFn, mathGamma, rfUnary, toRF]
  rw [if_pos]
  · congr 2
    rw [show (((3 : ℤ) : ℝ)) = (2 : ℕ) + 1 by norm_num, Real.Gamma_nat_eq_factorial]
    norm_num [Nat.factorial]
  · intro h
    have := h.1
    norm_num at this

lemma applyFn_factorial_half : applyFn .factorial [.float ((25 : ℕ) / 10 ^ 1 : ℝ)] = none := by
  simp only [applyFn, mathFactorial, Value.promote]
  rw [if_neg]
  intro h
  have h1 : isIntR ((25 : ℕ) / 10 ^ 1 : ℝ) := h.1
  unfold isIntR at h1
  rw [show ⌊((25 : ℕ) / 10 ^ 1 : ℝ)⌋ = 2 by push_cast; norm_num] at h1
  push_cast at h1
  norm_num at h1

lemma pyPow_neg_one_half :
    pyPow (.int (-1)) (.float ((5 : ℕ) / 10 ^ 1 : ℝ)) = .ok (.complex Complex.I) := by
  simp only [pyPow, Value.promote, toRF]
  simp only [rfPow]
  rw [if_neg (by push_cast; norm_num), if_neg (by push_cast; norm_num), if_neg]
  · congr 1
    rw [show ((((-1 : ℤ) : ℝ)) : ℂ) = -1 by push_cast; ring,
      show ((((5 : ℕ) / 10 ^ 1 : ℝ)) : ℂ) = 1 / 2 by push_cast; norm_num]
    exact congrArg _ cpow_neg_one_half
  · unfold isIntR
    rw [show ⌊((5 : ℕ) / 10 ^ 1 : ℝ)⌋ = 0 by push_cast; norm_num]
    push_cast
    norm_num

lemma evalE_pow_neg_one_half :
    evalE (.binOp .pow (.unaryOp .neg (.lit (.intL 1))) (.lit (.floatL 5 1))) =
      .ok (.complex Complex.I) := by
  rw [evalE_binOp_vals .pow (.unaryOp .neg (.lit (.intL 1))) (.lit (.floatL 5 1))
    (.int (-1)) (.float ((5 : ℕ) / 10 ^ 1 : ℝ)) rfl rfl]
  exact pyPow_neg_one_half

lemma charNorm_idem (c : Char) : (charNorm c).flatMap charNorm = charNorm c := by
  unfold charNorm
  split_ifs with h1 h2 h3 h4 <;> simp_all [charNorm, List.flatMap]

lemma normalize_idem (s : String) : normalize (normalize s) = normalize s := by
  unfold normalize
  congr 1
  show (s.data.flatMap charNorm).flatMap charNorm = s.data.flatMap charNorm
  rw [List.flatMap_assoc]
  simp only [charNorm_idem]


/-! ## Claim C3 — the division-by-zero guard -/

/-- C3: for every division node whose right operand evaluates to exactly 0
(in the sense of CPython `== 0`, which the guard uses), evaluation fails with
the `DivisionByZero` error kind (`EvalError("Division by zero")`), before any
division is attempted — the result is the error, never an infinity; in
particular `safe_eval("5/0")` fails with `DivisionByZero`. -/
theorem div_zero_guard :
    (∀ (a b : Expr) (va v : Value), evalE a = .ok va → evalE b = .ok v → pyIsZero v →
      evalE (.binOp .div a b) = .error (.evalError .divisionByZero)) ∧
    safe_eval "5/0" = .error (.evalError .divisionByZero) := by
  refine ⟨fun a b va v ha hb hz => ?_, rfl⟩
  rw [evalE_binOp_vals .div a b va v ha hb]
  exact if_pos hz

/-- Witness for `div_zero_guard` at the concrete division `5 / 0`. -/
theorem div_zero_guard_witness :
    evalE (.binOp .div (.lit (.intL 5)) (.lit (.intL 0))) =
      .error (.evalError .divisionByZero) :=
  div_zero_guard.1 _ _ (.int 5) (.int 0) rfl rfl rfl

/-! ## Claim C9 — modulo by zero escapes the typed error discipline -/

/-- C9: the explicit zero-divisor guard covers only `/`, not `%`: `5 % 0`
raises a raw `ZeroDivisionError` that is not an `EvalError`, for `int` and
`float` operands alike. -/
theorem mod_zero_untyped :
    safe_eval "5%0" = .error .zeroDivisionError ∧
    (∀ e : EvalErr, PyExc.zeroDivisionError ≠ .evalError e) ∧
    (∀ a : ℤ, pyMod (.int a) (.int 0) = .error .zeroDivisionError) ∧
    (∀ x : ℝ, pyMod (.float x) (.float 0) = .error .zeroDivisionError) := by
  refine ⟨rfl, fun e h => PyExc.noConfusion h, fun a => ?_, fun x => ?_⟩
  · simp [pyMod, Value.promote]
  · simp [pyMod, Value.promote, toRF, rfMod]
    rfl

/-- Witness for `mod_zero_untyped` at `5 % 0` and the `DivisionByZero` kind. -/
theorem mod_zero_untyped_witness :
    safe_eval "5%0" = .error .zeroDivisionError ∧
    PyExc.zeroDivisionError ≠ .evalError .divisionByZero ∧
    pyMod (.int 5) (.int 0) = .error .zeroDivisionError :=
  ⟨mod_zero_untyped.1, mod_zero_untyped.2.1 _, mod_zero_untyped.2.2.1 5⟩

/-! ## Claim C6 — factorial's domain -/

/-- C6: `factorial` accepts exactly the non-negative integer-valued operands:
`factorial(4) = 24` (and every `n : ℕ` maps to `n!`), while a negative or
non-integral operand makes the application raise, which `safe_eval` reports
as its domain-error kind (realized in the source as
`EvalError("Function error")`), not as a value. -/
theorem factorial_domain :
    safe_eval "factorial(4)" = .ok (.int 24) ∧
    safe_eval "factorial(-1)" = .error (.evalError .functionError) ∧
    safe_eval "factorial(2.5)" = .error (.evalError .functionError) ∧
    (∀ n : ℤ, n < 0 → applyFn .factorial [.int n] = none) ∧
    (∀ x : ℝ, ¬ isIntR x → applyFn .factorial [.float x] = none) ∧
    (∀ x : ℝ, x < 0 → applyFn .factorial [.float x] = none) ∧
    (∀ n : ℕ, applyFn .factorial [.int (n : ℤ)] = some (.int (Nat.factorial n))) := by
  refine ⟨rfl, rfl, ?_, fun n hn => ?_, fun x hx => ?_, fun x hx => ?_, fun n => ?_⟩
  · rw [safe_eval_parsed "factorial(2.5)" (.call (.name "factorial") [.lit (.floatL 25 1)]) rfl,
      evalE_call_fn "factorial" .factorial [.lit (.floatL 25 1)]
        [.float ((25 : ℕ) / 10 ^ 1 : ℝ)] rfl rfl,
      applyFn_factorial_half]
    rfl
  · simp only [applyFn, mathFactorial, Value.promote]
    rw [if_neg (by omega)]
  · simp only [applyFn, mathFactorial, Value.promote]
    rw [if_neg fun h => hx h.1]
  · simp only [applyFn, mathFactorial, Value.promote]
    rw [if_neg fun h => absurd h.2 (by linarith)]
  · simp only [applyFn, mathFactorial, Value.promote]
    rw [if_pos (Int.natCast_nonneg _)]
    simp

/-- Witness for `factorial_domain` at `-1`, `5/2` and `4`. -/
theorem factorial_domain_witness :
    applyFn .factorial [.int (-1)] = none ∧
    applyFn .factorial [.float ((5 : ℝ) / 2)] = none ∧
    applyFn .factorial [.int ((4 : ℕ) : ℤ)] = some (.int (Nat.factorial 4)) := by
  refine ⟨factorial_domain.2.2.2.1 (-1) (by norm_num),
    factorial_domain.2.2.2.2.1 ((5 : ℝ) / 2) ?_, factorial_domain.2.2.2.2.2.2 4⟩
  unfold isIntR
  rw [show ⌊((5 : ℝ) / 2)⌋ = 2 by norm_num]
  norm_num

/-! ## Claim C4 — the registry is not the spec's closed set -/

/-- Counterexample to C4: the registry is built by reflection over the whole
`math` module, so names outside the spec's closed set do *not* fail with
`UnknownFunction`: calling `gamma` succeeds (`gamma(3) = 2.0`), and a
reference to `sinh` resolves to the host function object. -/
theorem math_module_names_allowed :
    safe_eval "gamma(3)" = .ok (.float 2) ∧ safe_eval "sinh" = .ok (.fn .sinh) := by
  constructor
  · rw [safe_eval_parsed "gamma(3)" (.call (.name "gamma") [.lit (.intL 3)]) rfl,
      evalE_call_fn "gamma" .gamma [.lit (.intL 3)] [.int 3] rfl rfl,
      applyFn_gamma_three]
    rfl
  · rfl

/-- C4 (amended): the capability registry is `dir(math)` plus the update's
extra keys (`ln`, `pow`, `abs`), not the spec's smaller closed set; it does
contain `gamma` and `sinh`, and only identifiers outside this larger set fail
with the unknown-function kinds (`"Function ... not allowed"` for calls,
`"Name not allowed"` for references). -/
theorem registry_whitelist_closure :
    (∀ (fname : String) (args : List Expr), SAFE_MATH fname = none →
      evalE (.call (.name fname) args) = .error (.evalError (.functionNotAllowed fname))) ∧
    (∀ fname : String, SAFE_MATH fname = none →
      evalE (.name fname) = .error (.evalError .nameNotAllowed)) ∧
    SAFE_MATH "gamma" = some (.fn .gamma) ∧
    SAFE_MATH "sinh" = some (.fn .sinh) ∧
    SAFE_MATH "zeta" = none ∧
    safe_eval "zeta(1)" = .error (.evalError (.functionNotAllowed "zeta")) := by
  refine ⟨fun fname args h => ?_, fun fname h => ?_, rfl, rfl, rfl, rfl⟩
  · simp [evalE, h]
  · simp [evalE, h]

/-- Witness for `registry_whitelist_closure` at the unregistered name
`zeta`. -/
theorem registry_whitelist_closure_witness :
    evalE (.call (.name "zeta") [.lit (.intL 1)]) =
      .error (.evalError (.functionNotAllowed "zeta")) ∧
    evalE (.name "zeta") = .error (.evalError .nameNotAllowed) :=
  ⟨registry_whitelist_closure.1 "zeta" _ rfl, registry_whitelist_closure.2.1 "zeta" rfl⟩

/-! ## Claim C5 — bare names return raw registry entries -/

/-- Counterexample to C5: a bare reference to a registered *function* name
does not fail with `UnknownFunction` — `safe_eval("sqrt")` returns the
function object itself, a non-numeric value. -/
theorem bare_function_name_not_rejected : safe_eval "sqrt" = .ok (.fn .sqrt) := rfl

/-- C5 (amended): a bare `NameRef` is answered with whatever the registry
holds under that name — numeric constants (`pi`, `e`, also `tau` and the rest
of the module's constants) yield their values, function names yield the raw
function object — and only a name absent from the registry fails, with
`"Name not allowed"`. -/
theorem nameref_returns_registry_entry :
    (∀ (n : String) (v : Value), SAFE_MATH n = some v → evalE (.name n) = .ok v) ∧
    (∀ n : String, SAFE_MATH n = none →
      evalE (.name n) = .error (.evalError .nameNotAllowed)) ∧
    safe_eval "pi" = .ok (.float Real.pi) ∧
    safe_eval "e" = .ok (.float (Real.exp 1)) ∧
    safe_eval "tau" = .ok (.float (2 * Real.pi)) := by
  refine ⟨fun n v h => ?_, fun n h => ?_, rfl, rfl, rfl⟩
  · simp [evalE, h]
  · simp [evalE, h]

/-- Witness for `nameref_returns_registry_entry` at `pi` and at the
unregistered name `gauss`. -/
theorem nameref_returns_registry_entry_witness :
    evalE (.name "pi") = .ok (.float Real.pi) ∧
    evalE (.name "gauss") = .error (.evalError .nameNotAllowed) :=
  ⟨nameref_returns_registry_entry.1 "pi" _ rfl, nameref_returns_registry_entry.2.1 "gauss" rfl⟩

/-! ## Claim C7 — error kinds are only partially distinguishable -/

/-- Shared helper: `sqrt(-1)` fails with the generic
`EvalError("Function error")` (the `ValueError` raised by `math.sqrt` is
swallowed by the walker's catch-all). -/
lemma sqrt_neg_one_eval : safe_eval "sqrt(-1)" = .error (.evalError .functionError) := by
  rw [safe_eval_parsed "sqrt(-1)" (.call (.name "sqrt") [.unaryOp .neg (.lit (.intL 1))]) rfl,
    evalE_call_fn "sqrt" .sqrt [.unaryOp .neg (.lit (.intL 1))] [.int (-1)] rfl rfl,
    applyFn_sqrt_neg]
  rfl

/-- Counterexample to C7: an arity mismatch (`pow(2)`) and a domain error
(`sqrt(-1)`) produce *identical* results — both are
`EvalError("Function error")` — so the `ArityMismatch` and `DomainError`
kinds are not distinguishable to the caller. -/
theorem arity_domain_errors_collapse :
    safe_eval "pow(2)" = safe_eval "sqrt(-1)" ∧
    safe_eval "pow(2)" = .error (.evalError .functionError) :=
  ⟨by rw [sqrt_neg_one_eval]; rfl, rfl⟩

/-- C7 (amended): every failure path still returns an error, never a default
value, and an unknown name carries its own kind
(`"Function foo not allowed"`), distinguishable from `"Function error"`; but
arity mismatches and domain errors are both collapsed into the single
`"Function error"` kind and are not mutually distinguishable. -/
theorem error_kinds_partially_distinct :
    safe_eval "foo(1)" = .error (.evalError (.functionNotAllowed "foo")) ∧
    safe_eval "pow(2)" = .error (.evalError .functionError) ∧
    safe_eval "sqrt(-1)" = .error (.evalError .functionError) ∧
    (∀ s : String, EvalErr.functionNotAllowed s ≠ .functionError) ∧
    applyFn .powB [.int 2] = none :=
  ⟨rfl, rfl, sqrt_neg_one_eval, fun _ h => EvalErr.noConfusion h, rfl⟩

/-- Witness for `error_kinds_partially_distinct`: the unknown-function kind
for `foo` differs from the collapsed function-error kind. -/
theorem error_kinds_partially_distinct_witness :
    EvalErr.functionNotAllowed "foo" ≠ .functionError :=
  error_kinds_partially_distinct.2.2.2.1 "foo"

/-! ## Claim C8 — `2(3+4)` is a call, not a `SyntaxError` -/

/-- Counterexample to C8: `2(3+4)` *parses successfully* (as a call whose
callee is the literal `2`, as in CPython) and fails only at evaluation, with
`EvalError("Invalid function")` — not with `SyntaxError`. -/
theorem implicit_mult_parses_as_call :
    parseStr (normalize "2(3+4)") =
      some (.call (.lit (.intL 2)) [.binOp .add (.lit (.intL 3)) (.lit (.intL 4))]) ∧
    safe_eval "2(3+4)" = .error (.evalError .invalidFunction) :=
  ⟨rfl, rfl⟩

/-- C8 (amended): there is indeed no implicit multiplication and no value is
returned for `2(3+4)`, but the failure is the evaluator's
`EvalError("Invalid function")` (any call whose callee is not a bare name),
which is a different kind from `SyntaxError`. -/
theorem number_call_eval_error :
    (∀ (f : Expr) (args : List Expr), (∀ m : String, f ≠ .name m) →
      evalE (.call f args) = .error (.evalError .invalidFunction)) ∧
    safe_eval "2(3+4)" = .error (.evalError .invalidFunction) ∧
    EvalErr.invalidFunction ≠ .syntaxError := by
  refine ⟨fun f args h => ?_, rfl, fun h => EvalErr.noConfusion h⟩
  cases f with
  | name m => exact absurd rfl (h m)
  | lit v => simp [evalE]
  | unaryOp op e => simp [evalE]
  | binOp op l r => simp [evalE]
  | call g as => simp [evalE]

/-- Witness for `number_call_eval_error` at the parsed form of `2(3+4)`. -/
theorem number_call_eval_error_witness :
    evalE (.call (.lit (.intL 2)) [.binOp .add (.lit (.intL 3)) (.lit (.intL 4))]) =
      .error (.evalError .invalidFunction) :=
  number_call_eval_error.1 _ _ (fun _ h => Expr.noConfusion h)

/-! ## Claim C1 — only the final result is checked for complexity -/

/-- Counterexample to C1: for `abs((-1)**0.5)` the *intermediate* result is
the complex value `I` (second conjunct), yet `safe_eval` does not fail with
`UnsupportedResult` — it keeps computing with the complex value and returns
`1.0` (first conjunct). -/
theorem intermediate_complex_escapes :
    safe_eval "abs((-1)**0.5)" = .ok (.float 1) ∧
    evalE (.binOp .pow (.unaryOp .neg (.lit (.intL 1))) (.lit (.floatL 5 1))) =
      .ok (.complex Complex.I) := by
  constructor
  · have ha :
        evalArgs [.binOp .pow (.unaryOp .neg (.lit (.intL 1))) (.lit (.floatL 5 1))] =
          .ok [.complex Complex.I] := by
      simp only [evalArgs, evalE_pow_neg_one_half]
      rfl
    rw [safe_eval_parsed "abs((-1)**0.5)"
        (.call (.name "abs") [.binOp .pow (.unaryOp .neg (.lit (.intL 1))) (.lit (.floatL 5 1))])
        rfl,
      evalE_call_fn "abs" .absB _ [.complex Complex.I] rfl ha]
    have happ : applyFn .absB [.complex Complex.I] = some (.float 1) := by
      simp [applyFn, mathAbsB, Value.promote, Complex.abs_I]
    rw [happ]
    rfl
  · exact evalE_pow_neg_one_half

/-- C1 (amended): the evaluator rejects a complex *final* result — whenever
the walk of the parsed tree produces a complex value, `safe_eval` fails with
`UnsupportedResult` (`"Complex result not supported"`); in particular
`safe_eval("(-1)**0.5")` fails with that kind.  (Complex *intermediate*
values are computed with, per `intermediate_complex_escapes`.) -/
theorem final_complex_check :
    (∀ (s : String) (a : Expr) (z : ℂ), parseStr (normalize s) = some a →
      evalE a = .ok (.complex z) → safe_eval s = .error (.evalError .complexResult)) ∧
    safe_eval "(-1)**0.5" = .error (.evalError .complexResult) := by
  refine ⟨fun s a z hp he => ?_, ?_⟩
  · rw [safe_eval_parsed s a hp, he]
    rfl
  · rw [safe_eval_parsed "(-1)**0.5"
      (.binOp .pow (.unaryOp .neg (.lit (.intL 1))) (.lit (.floatL 5 1))) rfl,
      evalE_pow_neg_one_half]
    rfl

/-- Witness for `final_complex_check` at `(-1)**0.5`, whose evaluation
produces the complex value `I`. -/
theorem final_complex_check_witness :
    safe_eval "(-1)**0.5" = .error (.evalError .complexResult) :=
  final_complex_check.1 "(-1)**0.5"
    (.binOp .pow (.unaryOp .neg (.lit (.intL 1))) (.lit (.floatL 5 1)))
    Complex.I rfl evalE_pow_neg_one_half

/-! ## Claim C2 — standard operator precedence -/

/-- C10: `safe_eval` itself replaces the display glyphs `×, ÷, ^, √` with
`*, /, **, sqrt` before parsing, so evaluating a glyph form equals evaluating
its canonical form for *every* input (`safe_eval s = safe_eval (normalize s)`,
since normalization is idempotent), with the concrete instances
`2^3 = 2**3 = 8`, `√(9) = 3`, `6×7 = 42`, `8÷2 = 4.0`. -/
theorem glyph_normalization_internal :
    (∀ s : String, safe_eval s = safe_eval (normalize s)) ∧
    normalize "2^3" = "2**3" ∧
    normalize "√(9)" = "sqrt(9)" ∧
    normalize "6×7" = "6*7" ∧
    normalize "8÷2" = "8/2" ∧
    safe_eval "2^3" = .ok (.int 8) ∧
    safe_eval "2**3" = .ok (.int 8) ∧
    safe_eval "√(9)" = .ok (.float 3) ∧
    safe_eval "6×7" = .ok (.int 42) ∧
    safe_eval "8÷2" = .ok (.float 4) := by
  refine ⟨fun s => ?_, rfl, rfl, rfl, rfl, rfl, rfl, ?_, rfl, ?_⟩
  · unfold safe_eval
    rw [normalize_idem]
  · rw [safe_eval_parsed "√(9)" (.call (.name "sqrt") [.lit (.intL 9)]) rfl,
      evalE_call_fn "sqrt" .sqrt [.lit (.intL 9)] [.int 9] rfl rfl,
      applyFn_sqrt_nine]
    rfl
  · rw [safe_eval_parsed "8÷2" (.binOp .div (.lit (.intL 8)) (.lit (.intL 2))) rfl,
      evalE_binOp_vals .div (.lit (.intL 8)) (.lit (.intL 2)) (.int 8) (.int 2) rfl rfl]
    rw [if_neg (by decide)]
    simp only [pyDiv, Value.promote, postC]
    norm_num

end Calc2025
